import Mathlib

/-!
Shallow embedding of `sqlitehelper` (src/sqlitehelper/__init__.py): the schema
model (DBTable / DBCol / DBColUnique / DBColROWID), the query builders
(select / insert / update / delete / num_rows), the retry-on-lock execution
wrapper (`SH._execute`), the transaction and connection state machine
(`SH.begin` / `SH.commit` / `SH.rollback` / `SH.open` / `SH.close`), schema
materialization (`SH.MakeDatabaseSchema`), and the per-column lookup synthesis
of `SH_sub.__init__`.
-/

namespace SqliteHelper

/-- Python values that may be bound as SQL parameters. -/
inductive Val where
  | int (n : Int)
  | str (s : String)
  | null
deriving DecidableEq, Repr

/-- Python `sep.join(l)`: elements interleaved with the separator. -/
def strJoin (sep : String) : List String → String
  | [] => ""
  | [x] => x
  | x :: y :: xs => x ++ sep ++ strJoin sep (y :: xs)

/-! ## Schema model -/

/-- Which of the three column classes a column was built with:
`DBCol` (plain), `DBColUnique`, or `DBColROWID`. -/
inductive DBColKind where
  | plain
  | uniq
  | rowid
deriving DecidableEq, Repr

/-- A column declaration: `DBCol.__init__` stores the name and the type
string; `DBColUnique` additionally sets `_unique`; `DBColROWID` forces the
type to "integer". -/
structure DBCol where
  dbname : String
  typ : String
  kind : DBColKind
deriving DecidableEq, Repr

/-- Constructor `DBCol(dbname, typ)`. -/
def mkDBCol (dbname typ : String) : DBCol := ⟨dbname, typ, .plain⟩

/-- Constructor `DBColUnique(name, typ)` (sets `_unique = True`). -/
def mkDBColUnique (dbname typ : String) : DBCol := ⟨dbname, typ, .uniq⟩

/-- Constructor `DBColROWID(name='rowid')`: calls `DBCol.__init__(name, 'integer')`. -/
def mkDBColROWID (dbname : String) : DBCol := ⟨dbname, "integer", .rowid⟩

/-- Property `DBCol.IsUnique`. -/
def DBCol.IsUnique (c : DBCol) : Bool := c.kind = .uniq

/-- The base class property `DBCol.SQL`: "`name` typ". -/
def DBCol.baseSQL (c : DBCol) : String := "`" ++ c.dbname ++ "` " ++ c.typ

/-- Dynamic dispatch of the `SQL` property: `DBColROWID.SQL` overrides the
base property and appends " primary key"; the other classes use the base. -/
def DBCol.SQL (c : DBCol) : String :=
  match c.kind with
  | .rowid => c.baseSQL ++ " primary key"
  | _ => c.baseSQL

/-- A table declaration: `DBTable.__init__` stores the table name and the
ordered columns. -/
structure DBTable where
  DBName : String
  Cols : List DBCol
deriving DecidableEq, Repr

/-- Property `DBTable.SQL`: joins the column clauses with "," in declaration
order inside a CREATE TABLE statement. -/
def DBTable.SQL (t : DBTable) : String :=
  "CREATE TABLE `" ++ t.DBName ++ "` (" ++ strJoin "," (t.Cols.map DBCol.SQL) ++ ")"

/-! ## Query builders -/

/-- An element of a Python list passed as the column selector: either a
string or some non-string object. -/
inductive PyItem where
  | str (s : String)
  | notStr
deriving DecidableEq, Repr

/-- The `cols` argument of `SH.select`: Python `None`, a string, a list, or
any other object. -/
inductive ColsArg where
  | pynone
  | str (s : String)
  | list (l : List PyItem)
  | other
deriving DecidableEq, Repr

/-- The cols-normalisation block of `SH.select`: `None` or `'*'` select all;
a string is wrapped into a one-element list; a list must contain only
strings; anything else is rejected. The accepted names are backtick-quoted
and comma-joined. -/
def colsToStr : ColsArg → Except String String
  | .pynone => .ok "*"
  | .str s =>
      if s = "*" then .ok "*"
      else .ok (strJoin "," (["`" ++ s ++ "`"]))
  | .list l =>
      if l.all (fun it => match it with | .str _ => true | .notStr => false) then
        .ok (strJoin "," (l.map (fun it => match it with | .str s => "`" ++ s ++ "`" | .notStr => "")))
      else .error "All columns are are expected to be a list of stirngs"
  | .other => .error "Unrecognized columns input"

/-- Python truthiness of an optional string clause: `sql += kw + s` runs only
when the argument is neither `None` nor the empty string. -/
def optClause (kw : String) : Option String → String
  | none => ""
  | some s => if s = "" then "" else kw ++ s

/-- `SH.select(tname, cols, where, vals, order)`, up to the point where the
SQL text and the value tuple are handed to `execute`. `vals=None` defaults
to the empty list. -/
def shSelect (tname : String) (cols : ColsArg) (wh : Option String)
    (vals : Option (List Val)) (order : Option String) :
    Except String (String × List Val) :=
  let vs := vals.getD []
  (colsToStr cols).map (fun c =>
    ("SELECT " ++ c ++ " FROM `" ++ tname ++ "`"
      ++ optClause " WHERE " wh ++ optClause " ORDER BY " order, vs))

/-- `SH.insert(tname, **cols)`: keyword arguments in their given order; one
`?` placeholder per value, names backtick-quoted and comma-joined. -/
def shInsert (tname : String) (cols : List (String × Val)) : String × List Val :=
  let names := cols.map Prod.fst
  let vals := cols.map Prod.snd
  let vnames := strJoin "," (List.replicate names.length "?")
  let colstr := strJoin "," (names.map (fun n => "`" ++ n ++ "`"))
  ("INSERT INTO `" ++ tname ++ "` (" ++ colstr ++ ") VALUES (" ++ vnames ++ ")", vals)

/-- Python `str.strip()`: whitespace removed from both ends. -/
def pyStrip (s : String) : String :=
  ⟨(((s.data.dropWhile Char.isWhitespace).reverse).dropWhile Char.isWhitespace).reverse⟩

/-- Python `str.lower()` (ASCII case folding, which is all the joiner
comparison needs). -/
def pyLower (s : String) : String := ⟨s.data.map Char.toLower⟩

/-- `SH.update(tname, where, vals, joiner='AND')`: builds `col`=? fragments
for the SET and WHERE dictionaries in order; the joiner is stripped and
lowercased before comparison; SET values precede WHERE values. -/
def shUpdate (tname : String) (wh : List (String × Val)) (vals : List (String × Val))
    (joiner : String) : Except String (String × List Val) :=
  let sCols := vals.map (fun kv => "`" ++ kv.1 ++ "`=?")
  let sVals := vals.map Prod.snd
  let wCols := wh.map (fun kv => "`" ++ kv.1 ++ "`=?")
  let wVals := wh.map Prod.snd
  let j := pyLower (pyStrip joiner)
  if j = "and" then
    .ok ("UPDATE `" ++ tname ++ "` SET " ++ strJoin "," sCols
          ++ " WHERE " ++ strJoin " AND " wCols, sVals ++ wVals)
  else if j = "or" then
    .ok ("UPDATE `" ++ tname ++ "` SET " ++ strJoin "," sCols
          ++ " WHERE " ++ strJoin " OR " wCols, sVals ++ wVals)
  else .error "joiner parameter must be AND or OR"

/-- `SH.delete(tname, where, joiner='AND')`: same WHERE construction and
joiner validation as `SH.update`. -/
def shDelete (tname : String) (wh : List (String × Val)) (joiner : String) :
    Except String (String × List Val) :=
  let wCols := wh.map (fun kv => "`" ++ kv.1 ++ "`=?")
  let wVals := wh.map Prod.snd
  let j := pyLower (pyStrip joiner)
  if j = "and" then
    .ok ("DELETE FROM `" ++ tname ++ "` WHERE " ++ strJoin " AND " wCols, wVals)
  else if j = "or" then
    .ok ("DELETE FROM `" ++ tname ++ "` WHERE " ++ strJoin " OR " wCols, wVals)
  else .error "joiner parameter must be AND or OR"

/-- `SH.num_rows(tname, where, vals)`: the count query; `vals=None` means no
values are passed to `execute` (which then substitutes the empty tuple). -/
def shNumRows (tname : String) (wh : Option String) (vals : Option (List Val)) :
    String × List Val :=
  ("SELECT count(*) as `count` FROM `" ++ tname ++ "`" ++ optClause " WHERE " wh,
   vals.getD [])

/-! ## Execution wrapper (`SH._execute`) with retry on "database is locked" -/

/-- Python prefix test on character lists (used to implement `in`). -/
def charsHasPre : List Char → List Char → Bool
  | [], _ => true
  | _ :: _, [] => false
  | a :: as, b :: bs => a = b && charsHasPre as bs

/-- Substring occurrence on character lists. -/
def charsHasSub (needle : List Char) : List Char → Bool
  | [] => charsHasPre needle []
  | h :: t => charsHasPre needle (h :: t) || charsHasSub needle t

/-- Python `needle in hay` on strings. -/
def strIn (needle hay : String) : Bool := charsHasSub needle.data hay.data

/-- Outcome of one attempt of `self.DB.execute(sql, vals)`: success, a raised
`sqlite3.OperationalError` with message, or an exception of any other class
(which the `except` clause does not catch). -/
inductive EngineRes (α : Type) where
  | ok (r : α)
  | opError (msg : String)
  | otherExc (msg : String)
deriving DecidableEq, Repr

/-- How a call of `SH._execute` ends: a normal return (`none` models the
implicit `return None` when the while loop exhausts its 10 iterations) or a
propagated exception. -/
inductive ExecOut (α : Type) where
  | ret (r : Option α)
  | raised (msg : String)
deriving DecidableEq, Repr

/-- The `while cnt < 10` loop of `SH._execute`. `engine n` is the outcome of
the attempt made when the counter equals `n`; `fuel` is the number of
remaining iterations (`10 - cnt`), so the loop condition is `fuel > 0`. The
returned list records the argument of each `time.sleep` call, in order. -/
def execLoop {α : Type} (engine : Nat → EngineRes α) :
    Nat → Nat → List Nat → ExecOut α × List Nat
  | _, 0, sleeps => (.ret none, sleeps)
  | cnt, fuel + 1, sleeps =>
      match engine cnt with
      | .ok r => (.ret (some r), sleeps)
      | .opError m =>
          if strIn "database is locked" m then
            execLoop engine (cnt + 1) fuel (sleeps ++ [cnt])
          else (.raised m, sleeps)
      | .otherExc m => (.raised m, sleeps)

/-- `SH._execute`: start the loop at `cnt = 0` with 10 iterations available. -/
def shExecute {α : Type} (engine : Nat → EngineRes α) : ExecOut α × List Nat :=
  execLoop engine 0 10 []

/-! ## Connection and transaction state (`SH.open/close/begin/commit/rollback`) -/

/-- The mutable state of an `SH` instance that the lifecycle methods touch:
`_db` (the connection, `None` before open and after close) and `_cursor`
(the transaction handle, `None` when no transaction is active). -/
structure SHState where
  fname : String
  db : Option Unit
  cursor : Option Unit
deriving DecidableEq, Repr

/-- `SH.open`: raises if a connection is already present, otherwise connects.
The result pairs the raised message (if any) with the state after the call;
a raise leaves the state untouched. -/
def shOpen (s : SHState) : Option String × SHState :=
  match s.db with
  | some _ => (some ("Already opened to database '" ++ s.fname ++ "'"), s)
  | none => (none, { s with db := some () })

/-- `SH.close`: raises if no connection is present, otherwise drops it
(the cursor field is not touched by `close`). -/
def shClose (s : SHState) : Option String × SHState :=
  match s.db with
  | none => (some ("Not opened to database '" ++ s.fname ++ "', cannot close it"), s)
  | some _ => (none, { s with db := none })

/-- `SH.begin`: when no cursor exists, `self._db.cursor()` allocates one
(raising `AttributeError` if `_db` is `None`); when a cursor exists, raises
"Already in a transaction" and changes nothing. -/
def shBegin (s : SHState) : Option String × SHState :=
  match s.cursor with
  | none =>
      match s.db with
      | none => (some "AttributeError: NoneType object has no attribute cursor", s)
      | some _ => (none, { s with cursor := some () })
  | some _ => (some "Already in a transaction", s)

/-- `SH.commit`: a no-op when `_cursor` is `None`; otherwise commits on the
connection (raising `AttributeError` if `_db` is `None`) and clears the
cursor. -/
def shCommit (s : SHState) : Option String × SHState :=
  match s.cursor with
  | none => (none, s)
  | some _ =>
      match s.db with
      | none => (some "AttributeError: NoneType object has no attribute commit", s)
      | some _ => (none, { s with cursor := none })

/-- `SH.rollback`: same structure as `SH.commit` with `rollback` in place of
`commit`. -/
def shRollback (s : SHState) : Option String × SHState :=
  match s.cursor with
  | none => (none, s)
  | some _ =>
      match s.db with
      | none => (some "AttributeError: NoneType object has no attribute rollback", s)
      | some _ => (none, { s with cursor := none })

/-- `SH._execute` as invoked on an instance: the first loop iteration
evaluates `self.DB.execute`, which raises `AttributeError` (uncaught) when
the connection is absent. -/
def shExecuteSt {α : Type} (s : SHState) (engine : Nat → EngineRes α) :
    ExecOut α × List Nat :=
  match s.db with
  | none => (.raised "AttributeError: NoneType object has no attribute execute", [])
  | some _ => shExecute engine

/-! ## Schema materialization (`SH.MakeDatabaseSchema`) -/

/-- The state `MakeDatabaseSchema` interacts with: the engine catalog (the
names in `sqlite_master`, in creation order) and the transaction cursor of
the `SH` instance. -/
structure MDBState where
  tables : List String
  cursor : Option Unit
deriving DecidableEq, Repr

/-- The per-table loop of `SH.MakeDatabaseSchema` over the `DBTable` entries
of `__schema__`. `tnames` is the catalog snapshot taken by the initial
`select name from sqlite_master` query; a declared table whose name is in the
snapshot is skipped, otherwise its DDL runs between `begin()` and `commit()`.
Executing a CREATE TABLE for a name already in the catalog is an engine
error; `begin()` while a cursor exists raises. The accumulator collects the
DDL statements actually executed. -/
def mdsGo (tnames : List String) : List DBTable → MDBState → List String →
    Except String (MDBState × List String)
  | [], st, acc => .ok (st, acc)
  | t :: rest, st, acc =>
      if t.DBName ∈ tnames then mdsGo tnames rest st acc
      else
        match st.cursor with
        | some _ => .error "Already in a transaction"
        | none =>
            if t.DBName ∈ st.tables then
              .error ("table " ++ t.DBName ++ " already exists")
            else
              mdsGo tnames rest { tables := st.tables ++ [t.DBName], cursor := none }
                (acc ++ [t.SQL])

/-- `SH.MakeDatabaseSchema` restricted to a `__schema__` of `DBTable`
entries: snapshot the catalog, then run the loop. -/
def makeDatabaseSchema (schema : List DBTable) (st : MDBState) :
    Except String (MDBState × List String) :=
  mdsGo st.tables schema st []

/-! ## Lookup synthesis (`SH_sub.__init__`) -/

/-- Which factory built a synthesized lookup: `getbypkey` (full row by
primary key), `getbycolumnunique` (single rowid or `None`), or
`getbycolumn` (list of rowids). -/
inductive LookupKind where
  | byPkey
  | byColUnique
  | byCol
deriving DecidableEq, Repr

/-- The primary-key scan of `SH_sub.__init__`: iterates all columns keeping
the last `DBColROWID` seen. -/
def findPkey (cols : List DBCol) : Option DBCol :=
  cols.foldl (fun acc c => if c.kind = .rowid then some c else acc) none

/-- The attribute-creation loop of `SH_sub.__init__`: when no primary key
column exists nothing is synthesized (code comment: "Only create these
functions if there's a primary key"); otherwise each column yields one
function attribute: `GetById` for the `DBColROWID` column, and
`GetBy<name>` via the unique or non-unique factory for the rest. -/
def synthesizedLookups (t : DBTable) : List (String × LookupKind) :=
  match findPkey t.Cols with
  | none => []
  | some _ =>
      t.Cols.map (fun col =>
        if col.kind = .rowid then ("GetById", LookupKind.byPkey)
        else if col.IsUnique then ("GetBy" ++ col.dbname, LookupKind.byColUnique)
        else ("GetBy" ++ col.dbname, LookupKind.byCol))

/-! ## Row post-processing (`SH.select_one` and the lookup helpers) -/

/-- A decoded row: a name-addressable mapping from column name to value. -/
def Row : Type := List (String × Val)

/-- Row indexing `res[k]`: the first binding for the name, if any. -/
def rowGet (r : Row) (k : String) : Option Val :=
  (r.find? (fun kv => kv.1 = k)).map Prod.snd

/-- `SH.select_one`: runs `select`; if that returned `None` (exhausted retry)
the result is `None`, otherwise `fetchone()` yields the first row of the
result set or `None` when the set is empty. `engine` maps the query built by
`select` to its result set (`none` modelling the `None` cursor). -/
def shSelectOne (tname : String) (cols : ColsArg) (wh : Option String)
    (vals : Option (List Val)) (order : Option String)
    (engine : String × List Val → Option (List Row)) :
    Except String (Option Row) :=
  match shSelect tname cols wh vals order with
  | .error e => .error e
  | .ok q =>
      match engine q with
      | none => .ok none
      | some rows => .ok rows.head?

/-- `rowidorempty` of `SH_sub.__init__`: `None` becomes the empty list,
otherwise every row's `rowid` field is collected (a missing field would be a
`KeyError`). -/
def rowidorempty (res : Option (List Row)) : Except String (List Val) :=
  match res with
  | none => .ok []
  | some rows =>
      match rows.mapM (fun r => rowGet r "rowid") with
      | some l => .ok l
      | none => .error "KeyError: rowid"

/-- `rowidornone` of `SH_sub.__init__`: `None` stays `None`, otherwise the
row's `rowid` field is returned. -/
def rowidornone (res : Option Row) : Except String (Option Val) :=
  match res with
  | none => .ok none
  | some r =>
      match rowGet r "rowid" with
      | some v => .ok (some v)
      | none => .error "KeyError: rowid"

/-- `dictornone` of `SH_sub.__init__`: `None` stays `None`, otherwise the row
is converted to a plain dictionary. -/
def dictornone (res : Option Row) : Option Row :=
  match res with
  | none => none
  | some r => some r

/-- Decidable equality for `Except`, used to evaluate the builders on
concrete inputs. -/
instance {ε α : Type} [DecidableEq ε] [DecidableEq α] : DecidableEq (Except ε α) := fun a b =>
  match a, b with
  | .ok x, .ok y =>
      if h : x = y then .isTrue (by rw [h])
      else .isFalse (by intro hh; cases hh; exact h rfl)
  | .error x, .error y =>
      if h : x = y then .isTrue (by rw [h])
      else .isFalse (by intro hh; cases hh; exact h rfl)
  | .ok _, .error _ => .isFalse (by intro hh; cases hh)
  | .error _, .ok _ => .isFalse (by intro hh; cases hh)

/-- Number of `?` placeholder characters in a piece of SQL text. -/
def countQ (s : String) : Nat := s.data.count '?'

/-! ## Lemmas about the retry loop -/

theorem execLoop_all_locked {α : Type} (engine : Nat → EngineRes α) (fuel : Nat) :
    ∀ (cnt : Nat) (sleeps : List Nat),
      (∀ i, i < fuel → ∃ m, engine (cnt + i) = .opError m ∧ strIn "database is locked" m = true) →
      execLoop engine cnt fuel sleeps
        = (.ret none, sleeps ++ (List.range fuel).map (cnt + ·)) := by
  induction fuel with
  | zero => intro cnt sleeps _; simp [execLoop]
  | succ fuel ih =>
      intro cnt sleeps h
      obtain ⟨m, hm, hl⟩ := h 0 (by omega)
      rw [Nat.add_zero] at hm
      have hshift : ∀ i, i < fuel →
          ∃ m', engine (cnt + 1 + i) = .opError m' ∧ strIn "database is locked" m' = true := by
        intro i hi
        obtain ⟨m', hm', hl'⟩ := h (i + 1) (by omega)
        refine ⟨m', ?_, hl'⟩
        rw [← hm']
        congr 1
        omega
      have hfun : ((cnt + ·) ∘ Nat.succ) = ((cnt + 1) + ·) := by
        funext i
        simp only [Function.comp_apply]
        omega
      rw [show execLoop engine cnt (fuel + 1) sleeps
            = execLoop engine (cnt + 1) fuel (sleeps ++ [cnt]) by
          simp [execLoop, hm, hl]]
      rw [ih (cnt + 1) (sleeps ++ [cnt]) hshift]
      simp [List.range_succ_eq_map, List.map_map, hfun]

theorem execLoop_locked_then_ok {α : Type} (engine : Nat → EngineRes α) (k : Nat) :
    ∀ (fuel cnt : Nat) (sleeps : List Nat) (r : α), k < fuel →
      (∀ i, i < k → ∃ m, engine (cnt + i) = .opError m ∧ strIn "database is locked" m = true) →
      engine (cnt + k) = .ok r →
      execLoop engine cnt fuel sleeps
        = (.ret (some r), sleeps ++ (List.range k).map (cnt + ·)) := by
  induction k with
  | zero =>
      intro fuel cnt sleeps r hk h hok
      rw [Nat.add_zero] at hok
      cases fuel with
      | zero => omega
      | succ fuel => simp [execLoop, hok]
  | succ k ih =>
      intro fuel cnt sleeps r hk h hok
      cases fuel with
      | zero => omega
      | succ fuel =>
          obtain ⟨m, hm, hl⟩ := h 0 (by omega)
          rw [Nat.add_zero] at hm
          have hshift : ∀ i, i < k →
              ∃ m', engine (cnt + 1 + i) = .opError m' ∧ strIn "database is locked" m' = true := by
            intro i hi
            obtain ⟨m', hm', hl'⟩ := h (i + 1) (by omega)
            refine ⟨m', ?_, hl'⟩
            rw [← hm']
            congr 1
            omega
          have hok' : engine (cnt + 1 + k) = .ok r := by
            rw [← hok]
            congr 1
            omega
          have hfun : ((cnt + ·) ∘ Nat.succ) = ((cnt + 1) + ·) := by
            funext i
            simp only [Function.comp_apply]
            omega
          rw [show execLoop engine cnt (fuel + 1) sleeps
                = execLoop engine (cnt + 1) fuel (sleeps ++ [cnt]) by
              simp [execLoop, hm, hl]]
          rw [ih fuel (cnt + 1) (sleeps ++ [cnt]) r (by omega) hshift hok']
          simp [List.range_succ_eq_map, List.map_map, hfun]

/-! ## Claim theorems -/

/-- Claim C1 (amended): dispatch through `SH._execute` retries a statement on
an engine-reported "database is locked" condition for up to 10 attempts with
a backoff delay equal to the current attempt count (0,1,…,9 time units); if
all 10 attempts fail with the locked condition the wrapper RETURNS an absent
result (Python `None`) to the caller instead of raising; any other engine
error propagates immediately without retry; and if the first k (<10)
attempts are locked and attempt k succeeds, the caller gets the result after
delays 0,…,k-1. -/
theorem C1_retry_semantics {α : Type} (engine : Nat → EngineRes α) :
    ((∀ i, i < 10 → ∃ m, engine i = .opError m ∧ strIn "database is locked" m = true) →
        shExecute engine = (.ret none, List.range 10)) ∧
    (∀ m, engine 0 = .opError m → strIn "database is locked" m = false →
        shExecute engine = (.raised m, [])) ∧
    (∀ m, engine 0 = .otherExc m → shExecute engine = (.raised m, [])) ∧
    (∀ k r, k < 10 →
        (∀ i, i < k → ∃ m, engine i = .opError m ∧ strIn "database is locked" m = true) →
        engine k = .ok r →
        shExecute engine = (.ret (some r), List.range k)) := by
  refine ⟨fun h => ?_, fun m hm hl => ?_, fun m hm => ?_, fun k r hk h hok => ?_⟩
  · have := execLoop_all_locked engine 10 0 [] (by simpa using h)
    simpa [shExecute] using this
  · simp [shExecute, execLoop, hm, hl]
  · simp [shExecute, execLoop, hm]
  · have := execLoop_locked_then_ok engine k 10 0 [] r hk (by simpa using h) (by simpa using hok)
    simpa [shExecute] using this

/-- Witness for C1: an engine locked on attempts 0,1,2 and succeeding on
attempt 3 ultimately succeeds after delays 0,1,2. -/
theorem C1_retry_semantics_witness :
    shExecute (fun i => if i < 3 then (EngineRes.opError "database is locked" : EngineRes Nat)
                        else .ok 42)
      = (.ret (some 42), List.range 3) := by
  refine (C1_retry_semantics _).2.2.2 3 42 (by omega) (fun i hi => ?_) (by decide)
  exact ⟨"database is locked", by interval_cases i <;> rfl, by rfl⟩

/-- Counterexample to C1 as stated: with the engine reporting "database is
locked" on every attempt, all 10 attempts fail locked, yet `SH._execute`
does not propagate any error — the `while` loop exhausts and the function
returns Python `None` (modelled as `.ret none`) to the caller. -/
theorem C1_counterexample :
    shExecute (fun _ => (EngineRes.opError "database is locked" : EngineRes Nat))
      = (.ret none, [0, 1, 2, 3, 4, 5, 6, 7, 8, 9]) := by rfl

/-- Claim C3: the transaction state of an `SH` instance is a two-state
machine. `begin()` moves no-transaction to active and raises "Already in a
transaction" (leaving the state unchanged) when a transaction is active;
`commit()` and `rollback()` move active to no-transaction; called with no
active transaction they are no-ops that return normally. Hence at most one
transaction is ever active. -/
theorem C3_transaction_state_machine (s : SHState) :
    (s.cursor = none → s.db = some () →
        shBegin s = (none, { s with cursor := some () })) ∧
    (s.cursor = some () → shBegin s = (some "Already in a transaction", s)) ∧
    (s.cursor = some () → s.db = some () →
        shCommit s = (none, { s with cursor := none }) ∧
        shRollback s = (none, { s with cursor := none })) ∧
    (s.cursor = none → shCommit s = (none, s) ∧ shRollback s = (none, s)) := by
  obtain ⟨f, db, cur⟩ := s
  cases cur <;> cases db <;>
    simp [shBegin, shCommit, shRollback]

/-- Witness for C3: from an open, idle instance, `begin` succeeds and
activates the transaction. -/
theorem C3_transaction_state_machine_witness :
    shBegin ⟨"f", some (), none⟩ = (none, ⟨"f", some (), some ()⟩) :=
  (C3_transaction_state_machine ⟨"f", some (), none⟩).1 rfl rfl

/-- Claim C10: `open()` on an instance that already holds a connection
raises and leaves the existing connection in place; `close()` on an instance
with no connection raises; operations that need a connection (statement
execution via `_execute`, `begin`) raise synchronously when the connection
is absent, which is the case before `open()` and again after `close()`
(whose resulting state has no connection). -/
theorem C10_connection_lifecycle (s : SHState) (engine : Nat → EngineRes Nat) :
    (∀ u, s.db = some u →
        shOpen s = (some ("Already opened to database '" ++ s.fname ++ "'"), s)) ∧
    (s.db = none →
        shClose s = (some ("Not opened to database '" ++ s.fname ++ "', cannot close it"), s)) ∧
    (s.db = none →
        (shExecuteSt s engine).1
          = .raised "AttributeError: NoneType object has no attribute execute") ∧
    (s.db = none → s.cursor = none →
        (shBegin s).1 = some "AttributeError: NoneType object has no attribute cursor") ∧
    (s.db = none → (shOpen s).1 = none ∧ (shOpen s).2.db = some ()) ∧
    (∀ u, s.db = some u → (shClose s).2.db = none) := by
  obtain ⟨f, db, cur⟩ := s
  cases db <;> cases cur <;>
    simp [shOpen, shClose, shBegin, shExecuteSt]

/-- Witness for C10: opening an already-open instance raises and the state
(hence the existing connection) is unchanged. -/
theorem C10_connection_lifecycle_witness :
    shOpen ⟨"f", some (), none⟩
      = (some "Already opened to database 'f'", ⟨"f", some (), none⟩) :=
  (C10_connection_lifecycle ⟨"f", some (), none⟩ (fun _ => .ok 0)).1 () rfl

theorem mdsGo_ok_spec (tnames : List String) :
    ∀ (l : List DBTable) (st st2 : MDBState) (acc acc2 : List String),
      mdsGo tnames l st acc = .ok (st2, acc2) →
      st2.cursor = st.cursor ∧ ∃ ext, st2.tables = st.tables ++ ext := by
  intro l
  induction l with
  | nil =>
      intro st st2 acc acc2 h
      simp only [mdsGo, Except.ok.injEq, Prod.mk.injEq] at h
      obtain ⟨h1, _⟩ := h
      subst h1
      exact ⟨rfl, [], by simp⟩
  | cons t rest ih =>
      intro st st2 acc acc2 h
      simp only [mdsGo] at h
      by_cases hmem : t.DBName ∈ tnames
      · rw [if_pos hmem] at h
        exact ih st st2 acc acc2 h
      · rw [if_neg hmem] at h
        obtain ⟨tbls, cur⟩ := st
        cases cur with
        | some u => simp at h
        | none =>
            simp only at h
            by_cases hmem2 : t.DBName ∈ tbls
            · rw [if_pos hmem2] at h
              simp at h
            · rw [if_neg hmem2] at h
              obtain ⟨hcur, ext, htab⟩ := ih ⟨tbls ++ [t.DBName], none⟩ st2 (acc ++ [t.SQL]) acc2 h
              exact ⟨hcur, [t.DBName] ++ ext, by rw [htab]; simp⟩

theorem mdsGo_ok_mem (tnames : List String) :
    ∀ (l : List DBTable) (st st2 : MDBState) (acc acc2 : List String),
      mdsGo tnames l st acc = .ok (st2, acc2) →
      ∀ t ∈ l, t.DBName ∈ tnames ∨ t.DBName ∈ st2.tables := by
  intro l
  induction l with
  | nil => intro st st2 acc acc2 _ t ht; simp at ht
  | cons u rest ih =>
      intro st st2 acc acc2 h t ht
      simp only [mdsGo] at h
      by_cases hmem : u.DBName ∈ tnames
      · rw [if_pos hmem] at h
        rcases List.mem_cons.mp ht with rfl | ht'
        · exact Or.inl hmem
        · exact ih st st2 acc acc2 h t ht'
      · rw [if_neg hmem] at h
        obtain ⟨tbls, cur⟩ := st
        cases cur with
        | some v => simp at h
        | none =>
            simp only at h
            by_cases hmem2 : u.DBName ∈ tbls
            · rw [if_pos hmem2] at h
              simp at h
            · rw [if_neg hmem2] at h
              rcases List.mem_cons.mp ht with rfl | ht'
              · obtain ⟨_, ext, htab⟩ :=
                  mdsGo_ok_spec tnames rest ⟨tbls ++ [t.DBName], none⟩ st2 (acc ++ [t.SQL]) acc2 h
                refine Or.inr ?_
                rw [htab]
                simp
              · exact ih ⟨tbls ++ [u.DBName], none⟩ st2 (acc ++ [u.SQL]) acc2 h t ht'

theorem mdsGo_skip_all (tnames : List String) :
    ∀ (l : List DBTable) (st : MDBState) (acc : List String),
      (∀ t ∈ l, t.DBName ∈ tnames) →
      mdsGo tnames l st acc = .ok (st, acc) := by
  intro l
  induction l with
  | nil => intro st acc _; rfl
  | cons t rest ih =>
      intro st acc h
      simp only [mdsGo]
      rw [if_pos (h t (List.mem_cons_self t rest))]
      exact ih st acc (fun u hu => h u (List.mem_cons_of_mem t hu))

/-- Claim C5: `MakeDatabaseSchema` snapshots the engine catalog, executes
the DDL of every declared table not already present inside a begin/commit
pair, and silently skips every declared table already present; consequently
a schema whose tables are all present executes no DDL and raises no error,
and a second materialization right after a successful one changes nothing,
creates no table, and raises no error. -/
theorem C5_schema_idempotence :
    (∀ (schema : List DBTable) (st : MDBState),
        (∀ t ∈ schema, t.DBName ∈ st.tables) →
        makeDatabaseSchema schema st = .ok (st, [])) ∧
    (∀ (schema : List DBTable) (st st2 : MDBState) (ddls : List String),
        makeDatabaseSchema schema st = .ok (st2, ddls) →
        makeDatabaseSchema schema st2 = .ok (st2, [])) := by
  constructor
  · intro schema st h
    exact mdsGo_skip_all st.tables schema st [] h
  · intro schema st st2 ddls h
    unfold makeDatabaseSchema at h ⊢
    have hmem := mdsGo_ok_mem st.tables schema st st2 [] ddls h
    obtain ⟨_, ext, htab⟩ := mdsGo_ok_spec st.tables schema st st2 [] ddls h
    apply mdsGo_skip_all
    intro t ht
    rcases hmem t ht with hin | hin
    · rw [htab]
      exact List.mem_append_left _ hin
    · exact hin

/-- Witness for C5: materializing a one-table schema on an empty database
creates the table; materializing again on the resulting state executes no
DDL and succeeds. -/
theorem C5_schema_idempotence_witness :
    makeDatabaseSchema [⟨"t", [mkDBCol "a" "text"]⟩] ⟨["t"], none⟩
      = .ok (⟨["t"], none⟩, []) :=
  C5_schema_idempotence.2 [⟨"t", [mkDBCol "a" "text"]⟩] ⟨[], none⟩ ⟨["t"], none⟩
    [DBTable.SQL ⟨"t", [mkDBCol "a" "text"]⟩] (by rfl)

theorem findPkey_aux (cols : List DBCol) :
    ∀ acc : Option DBCol,
      (cols.foldl (fun acc c => if c.kind = .rowid then some c else acc) acc = none
        ↔ (acc = none ∧ ∀ c ∈ cols, c.kind ≠ DBColKind.rowid)) := by
  induction cols with
  | nil => intro acc; simp
  | cons c rest ih =>
      intro acc
      simp only [List.foldl_cons]
      rw [ih]
      by_cases h : c.kind = .rowid
      · simp only [h, if_pos]
        constructor
        · rintro ⟨hc, _⟩; cases hc
        · rintro ⟨_, hall⟩
          exact absurd h (hall c (List.mem_cons_self c rest))
      · simp only [if_neg h]
        constructor
        · rintro ⟨hacc, hall⟩
          refine ⟨hacc, fun x hx => ?_⟩
          rcases List.mem_cons.mp hx with rfl | hx'
          · exact h
          · exact hall x hx'
        · rintro ⟨hacc, hall⟩
          exact ⟨hacc, fun x hx => hall x (List.mem_cons_of_mem c hx)⟩

theorem findPkey_eq_none_iff (cols : List DBCol) :
    findPkey cols = none ↔ ∀ c ∈ cols, c.kind ≠ DBColKind.rowid := by
  unfold findPkey
  rw [findPkey_aux]
  simp

/-- Counterexample to C4 as stated: a table declaring a single unique column
and no primary-key column synthesizes NO lookup function at all — the code
only creates the `GetBy*` family when a `DBColROWID` column is present
("Only create these functions if there's a primary key"), while the claim
demands a get-row-identifier lookup for the unique column of every
declaration. -/
theorem C4_counterexample :
    synthesizedLookups ⟨"t", [mkDBColUnique "u" "text"]⟩ = [] := by rfl

/-- Claim C4 (amended): at accessor construction, for every table
declaration that contains a primary-key (rowid-renaming) column, one lookup
is synthesized per column: `GetById` built by the full-row-by-primary-key
factory for the primary-key column, `GetBy<name>` built by the
single-identifier-or-absent factory for unique columns, and `GetBy<name>`
built by the identifier-sequence factory for all other columns; for a
declaration without a primary-key column no lookup is synthesized. -/
theorem C4_lookup_synthesis (t : DBTable) :
    ((∀ c ∈ t.Cols, c.kind ≠ DBColKind.rowid) → synthesizedLookups t = []) ∧
    ((∃ c ∈ t.Cols, c.kind = DBColKind.rowid) →
        synthesizedLookups t
          = t.Cols.map (fun col =>
              if col.kind = DBColKind.rowid then ("GetById", LookupKind.byPkey)
              else if col.IsUnique then ("GetBy" ++ col.dbname, LookupKind.byColUnique)
              else ("GetBy" ++ col.dbname, LookupKind.byCol))) := by
  constructor
  · intro h
    unfold synthesizedLookups
    rw [(findPkey_eq_none_iff t.Cols).mpr h]
  · intro h
    unfold synthesizedLookups
    cases hf : findPkey t.Cols with
    | none =>
        obtain ⟨c, hc, hk⟩ := h
        exact absurd hk ((findPkey_eq_none_iff t.Cols).mp hf c hc)
    | some c => rfl

/-- Witness for C4: a table with a renamed rowid, a unique column and a
plain column gets exactly `GetById`, a unique `GetByu` and a non-unique
`GetByp`. -/
theorem C4_lookup_synthesis_witness :
    synthesizedLookups
        ⟨"t", [mkDBColROWID "rowid", mkDBColUnique "u" "text", mkDBCol "p" "integer"]⟩
      = [("GetById", .byPkey), ("GetByu", .byColUnique), ("GetByp", .byCol)] := by
  rw [(C4_lookup_synthesis _).2 ⟨mkDBColROWID "rowid", by decide, by decide⟩]
  rfl

/-- Claim C8: zero matching rows is never an error — `select_one` returns an
explicit absent result when the result set is empty and the first row
otherwise, and the lookup post-processors (`rowidornone`, `dictornone` for
the unique/primary-key lookups, `rowidorempty` for the non-unique ones)
return an absent or empty result rather than raising when nothing matched. -/
theorem C8_not_found_is_absent :
    (∀ (t : String) (c : ColsArg) (wh : Option String) (vals : Option (List Val))
        (o : Option String) (engine : String × List Val → Option (List Row))
        (q : String × List Val),
        shSelect t c wh vals o = .ok q →
        (engine q = some [] → shSelectOne t c wh vals o engine = .ok none) ∧
        (∀ r rs, engine q = some (r :: rs) →
            shSelectOne t c wh vals o engine = .ok (some r))) ∧
    rowidornone none = .ok none ∧
    dictornone none = none ∧
    rowidorempty (some []) = .ok [] ∧
    rowidorempty none = .ok [] := by
  refine ⟨?_, rfl, rfl, rfl, rfl⟩
  intro t c wh vals o engine q hq
  constructor
  · intro he
    unfold shSelectOne
    rw [hq]
    dsimp only
    rw [he]
    rfl
  · intro r rs he
    unfold shSelectOne
    rw [hq]
    dsimp only
    rw [he]
    rfl

/-- Witness for C8: a select-one whose predicate matches no row yields an
absent result, not an error. -/
theorem C8_not_found_is_absent_witness :
    shSelectOne "t" .pynone none none none (fun _ => some []) = .ok none :=
  (C8_not_found_is_absent.1 "t" .pynone none none none (fun _ => some [])
      ("SELECT * FROM `t`", []) (by rfl)).1 (by rfl)

/-- Claim C9: the DDL of a table declaration is a pure function of the
declaration: a single CREATE TABLE statement whose column clauses appear
comma-joined in declaration order, each clause being the quoted column name
followed by its type, with the suffix " primary key" appended exactly for
the primary-key (rowid-renaming) column, whose type is always "integer". -/
theorem C9_ddl_characterization (t : DBTable) :
    t.SQL = "CREATE TABLE `" ++ t.DBName ++ "` ("
        ++ strJoin "," (t.Cols.map DBCol.SQL) ++ ")" ∧
    (t.Cols.map DBCol.SQL).length = t.Cols.length ∧
    (∀ c ∈ t.Cols, DBCol.SQL c
        = "`" ++ c.dbname ++ "` " ++ c.typ
          ++ (if c.kind = DBColKind.rowid then " primary key" else "")) ∧
    ∀ n, mkDBColROWID n = ⟨n, "integer", DBColKind.rowid⟩ := by
  refine ⟨rfl, by simp, ?_, fun n => rfl⟩
  intro c _
  cases hk : c.kind <;> simp [DBCol.SQL, DBCol.baseSQL, hk]

/-- Witness for C9: the DDL of a two-column table with a renamed rowid. -/
theorem C9_ddl_characterization_witness :
    DBCol.SQL (mkDBCol "name" "text") = "`name` text" := by
  have h := (C9_ddl_characterization
      ⟨"employee", [mkDBColROWID "rowid", mkDBCol "name" "text"]⟩).2.2.1
      (mkDBCol "name" "text") (by decide)
  rw [h]
  rfl

/-- Counterexample to C6 as stated: the empty column list is neither the
wildcard nor a non-empty set of names, so by the claim it should be rejected
with a contract error, and with the predicate absent the claim requires an
empty bound value list; instead `select` accepts the call, renders
"SELECT  FROM `t`" with no column names and no WHERE clause, and passes the
caller's non-empty value list through to `execute`. -/
theorem C6_counterexample :
    shSelect "t" (.list []) none (some [Val.str "x"]) none
      = .ok ("SELECT  FROM `t`", [Val.str "x"]) := by rfl

/-- Claim C6 (amended): `select` renders "SELECT <cols> FROM <table>"
followed by a WHERE clause exactly when a non-empty predicate string is
supplied and an ORDER BY clause exactly when a non-empty ordering is
supplied; the selector is the wildcard (`None` or "*"), a single column
name, or a list of column names (a possibly EMPTY list is accepted and
renders an empty column list); a list containing a non-string, or a
selector that is neither `None`, a string nor a list, is rejected with a
contract error; the supplied bound value list is passed through unchanged
and defaults to empty only when it is absent. -/
theorem C6_select_render (t : String) (wh : Option String)
    (vals : Option (List Val)) (o : Option String) :
    (shSelect t .pynone wh vals o
        = .ok ("SELECT * FROM `" ++ t ++ "`" ++ optClause " WHERE " wh
            ++ optClause " ORDER BY " o, vals.getD [])) ∧
    (shSelect t (.str "*") wh vals o
        = .ok ("SELECT * FROM `" ++ t ++ "`" ++ optClause " WHERE " wh
            ++ optClause " ORDER BY " o, vals.getD [])) ∧
    (∀ s, s ≠ "*" → shSelect t (.str s) wh vals o
        = .ok ("SELECT " ++ ("`" ++ s ++ "`") ++ " FROM `" ++ t ++ "`"
            ++ optClause " WHERE " wh ++ optClause " ORDER BY " o, vals.getD [])) ∧
    (∀ l : List String, shSelect t (.list (l.map PyItem.str)) wh vals o
        = .ok ("SELECT " ++ strJoin "," (l.map (fun s => "`" ++ s ++ "`"))
            ++ " FROM `" ++ t ++ "`"
            ++ optClause " WHERE " wh ++ optClause " ORDER BY " o, vals.getD [])) ∧
    (∀ l, PyItem.notStr ∈ l → shSelect t (.list l) wh vals o
        = .error "All columns are are expected to be a list of stirngs") ∧
    (shSelect t .other wh vals o = .error "Unrecognized columns input") ∧
    (optClause " WHERE " none = "" ∧ optClause " WHERE " (some "") = "") ∧
    (∀ w, w ≠ "" → optClause " WHERE " (some w) = " WHERE " ++ w) := by
  refine ⟨rfl, rfl, ?_, ?_, ?_, rfl, ⟨rfl, rfl⟩, ?_⟩
  · intro s hs
    simp only [shSelect, colsToStr, if_neg hs, strJoin, Except.map]
  · intro l
    have hall : (l.map PyItem.str).all
        (fun it => match it with | .str _ => true | .notStr => false) = true := by
      simp [List.all_map]
    have hmap : (l.map PyItem.str).map
        (fun it => match it with | .str s => "`" ++ s ++ "`" | .notStr => "")
        = l.map (fun s => "`" ++ s ++ "`") := by
      simp [List.map_map]
    simp only [shSelect, colsToStr, hall, if_pos, hmap, Except.map]
  · intro l hl
    have hall : l.all
        (fun it => match it with | .str _ => true | .notStr => false) = false := by
      rw [List.all_eq_false]
      exact ⟨.notStr, hl, by simp⟩
    simp only [shSelect, colsToStr, hall, Bool.false_eq_true, if_neg, Except.map]
    rfl
  · intro w hw
    simp [optClause, hw]

/-- Witness for C6: a single-column select with a predicate. -/
theorem C6_select_render_witness :
    shSelect "emp" (.str "name") (some "`awesome`=?") (some [Val.int 1]) none
      = .ok ("SELECT `name` FROM `emp` WHERE `awesome`=?", [Val.int 1]) := by
  have h := (C6_select_render "emp" (some "`awesome`=?") (some [Val.int 1]) none).2.2.1
      "name" (by decide)
  exact h.trans (by decide)

/-- Counterexample to C7 as stated: the joiner "and" is neither the string
'AND' nor 'OR', so by the claim `update` should raise a contract error;
instead the code compares the joiner after `strip().lower()` and renders
the statement. -/
theorem C7_counterexample :
    shUpdate "t" [("a", Val.int 1)] [("b", Val.int 2)] "and"
      = .ok ("UPDATE `t` SET `b`=? WHERE `a`=?", [Val.int 2, Val.int 1]) := by decide

/-- Claim C7 (amended): for an update with predicate map W, value map V and
join operator J: if J — after stripping surrounding whitespace and ignoring
case — is neither "AND" nor "OR", a contract error is raised; otherwise the
builder renders "UPDATE <t> SET <col>=?,... WHERE <col>=? <J> <col>=? ..."
with one equality fragment per map entry and the SET values preceding the
WHERE values in the bound list; an empty predicate map is not special-cased
and yields an empty WHERE condition (text ending in "WHERE ", malformed SQL
left to the engine); delete behaves the same way for its predicate map and
join operator. -/
theorem C7_update_delete_render (t : String) (wm vm : List (String × Val)) (j : String) :
    (pyLower (pyStrip j) ≠ "and" → pyLower (pyStrip j) ≠ "or" →
        shUpdate t wm vm j = .error "joiner parameter must be AND or OR" ∧
        shDelete t wm j = .error "joiner parameter must be AND or OR") ∧
    (pyLower (pyStrip j) = "and" →
        shUpdate t wm vm j
          = .ok ("UPDATE `" ++ t ++ "` SET "
              ++ strJoin "," (vm.map (fun kv => "`" ++ kv.1 ++ "`=?"))
              ++ " WHERE " ++ strJoin " AND " (wm.map (fun kv => "`" ++ kv.1 ++ "`=?")),
              vm.map Prod.snd ++ wm.map Prod.snd) ∧
        shDelete t wm j
          = .ok ("DELETE FROM `" ++ t ++ "` WHERE "
              ++ strJoin " AND " (wm.map (fun kv => "`" ++ kv.1 ++ "`=?")),
              wm.map Prod.snd)) ∧
    (pyLower (pyStrip j) = "or" →
        shUpdate t wm vm j
          = .ok ("UPDATE `" ++ t ++ "` SET "
              ++ strJoin "," (vm.map (fun kv => "`" ++ kv.1 ++ "`=?"))
              ++ " WHERE " ++ strJoin " OR " (wm.map (fun kv => "`" ++ kv.1 ++ "`=?")),
              vm.map Prod.snd ++ wm.map Prod.snd) ∧
        shDelete t wm j
          = .ok ("DELETE FROM `" ++ t ++ "` WHERE "
              ++ strJoin " OR " (wm.map (fun kv => "`" ++ kv.1 ++ "`=?")),
              wm.map Prod.snd)) ∧
    (∀ vm' : List (String × Val), pyLower (pyStrip j) = "and" →
        shUpdate t [] vm' j
          = .ok ("UPDATE `" ++ t ++ "` SET "
              ++ strJoin "," (vm'.map (fun kv => "`" ++ kv.1 ++ "`=?"))
              ++ " WHERE " ++ "", vm'.map Prod.snd)) := by
  refine ⟨fun h1 h2 => ?_, fun h => ?_, fun h => ?_, fun vm' h => ?_⟩
  · constructor <;> simp only [shUpdate, shDelete, if_neg h1, if_neg h2]
  · constructor <;> simp only [shUpdate, shDelete, if_pos h]
  · have hne : pyLower (pyStrip j) ≠ "and" := by rw [h]; decide
    constructor <;> simp only [shUpdate, shDelete, if_neg hne, if_pos h]
  · simp only [shUpdate, if_pos h, strJoin]
    simp

/-- Witness for C7: a well-formed AND update renders one fragment per map
entry with SET values before WHERE values. -/
theorem C7_update_delete_render_witness :
    shUpdate "t" [("rowid", Val.int 10)] [("age", Val.int 20)] "AND"
      = .ok ("UPDATE `t` SET `age`=? WHERE `rowid`=?", [Val.int 20, Val.int 10]) := by
  have h := ((C7_update_delete_render "t" [("rowid", Val.int 10)]
      [("age", Val.int 20)] "AND").2.1 (by decide)).1
  exact h.trans (by decide)

theorem countQ_append (a b : String) : countQ (a ++ b) = countQ a + countQ b := by
  simp [countQ, String.data_append, List.count_append]

theorem countQ_strJoin (sep : String) (h0 : countQ sep = 0) (l : List String) :
    countQ (strJoin sep l) = (l.map countQ).sum := by
  induction l with
  | nil => simp [strJoin, countQ]
  | cons x xs ih =>
      cases xs with
      | nil => simp [strJoin]
      | cons y ys =>
          rw [strJoin, countQ_append, countQ_append, h0, ih]
          simp only [List.map_cons, List.sum_cons]
          omega

theorem countQ_strJoin_zeros (sep : String) (h0 : countQ sep = 0) (l : List String)
    (h : ∀ x ∈ l, countQ x = 0) : countQ (strJoin sep l) = 0 := by
  rw [countQ_strJoin sep h0 l]
  apply List.sum_eq_zero
  intro x hx
  obtain ⟨y, hy, rfl⟩ := List.mem_map.mp hx
  exact h y hy

theorem countQ_strJoin_ones (sep : String) (h0 : countQ sep = 0) (l : List String)
    (h : ∀ x ∈ l, countQ x = 1) : countQ (strJoin sep l) = l.length := by
  rw [countQ_strJoin sep h0 l]
  have hrep : l.map countQ = List.replicate l.length 1 := by
    rw [List.eq_replicate_iff]
    constructor
    · simp
    · intro b hb
      obtain ⟨y, hy, rfl⟩ := List.mem_map.mp hb
      exact h y hy
  rw [hrep, List.sum_replicate]
  simp

theorem countQ_fragList (l : List (String × Val)) (h : ∀ kv ∈ l, countQ kv.1 = 0)
    (sep : String) (h0 : countQ sep = 0) :
    countQ (strJoin sep (l.map (fun kv => "`" ++ kv.1 ++ "`=?"))) = l.length := by
  rw [countQ_strJoin_ones sep h0]
  · simp
  · intro x hx
    obtain ⟨kv, hkv, rfl⟩ := List.mem_map.mp hx
    rw [countQ_append, countQ_append, h kv hkv]
    decide

/-- Claim C2: for the select, insert, update, delete and count builders, the
generated SQL text never contains a caller-supplied value — it depends only
on the table name, the column names, the predicate/ordering text and the
number of values; the values appear only, in order, in the bound-parameter
list handed to `execute` (SET values before WHERE values for update), and
for the builders that generate their own placeholders the text carries
exactly one `?` per value (given `?`-free identifiers). -/
theorem C2_values_never_in_sql :
    (∀ (t : String) (c : ColsArg) (wh : Option String) (v : List Val) (o : Option String),
        shSelect t c wh (some v) o
          = (shSelect t c wh (some []) o).map (fun p => (p.1, v))) ∧
    (∀ (t : String) (wh : Option String) (v : List Val),
        shNumRows t wh (some v) = ((shNumRows t wh none).1, v)) ∧
    (∀ (t : String) (prs prs' : List (String × Val)),
        prs.map Prod.fst = prs'.map Prod.fst →
        (shInsert t prs).1 = (shInsert t prs').1) ∧
    (∀ (t : String) (prs : List (String × Val)),
        (shInsert t prs).2 = prs.map Prod.snd) ∧
    (∀ (t : String) (wm vm wm' vm' : List (String × Val)) (j : String),
        wm.map Prod.fst = wm'.map Prod.fst →
        vm.map Prod.fst = vm'.map Prod.fst →
        (shUpdate t wm vm j).map Prod.fst = (shUpdate t wm' vm' j).map Prod.fst) ∧
    (∀ (t : String) (wm vm : List (String × Val)) (j sql : String) (ps : List Val),
        shUpdate t wm vm j = .ok (sql, ps) →
        ps = vm.map Prod.snd ++ wm.map Prod.snd) ∧
    (∀ (t : String) (wm wm' : List (String × Val)) (j : String),
        wm.map Prod.fst = wm'.map Prod.fst →
        (shDelete t wm j).map Prod.fst = (shDelete t wm' j).map Prod.fst) ∧
    (∀ (t : String) (wm : List (String × Val)) (j sql : String) (ps : List Val),
        shDelete t wm j = .ok (sql, ps) → ps = wm.map Prod.snd) ∧
    (∀ (t : String) (prs : List (String × Val)),
        countQ t = 0 → (∀ kv ∈ prs, countQ kv.1 = 0) →
        countQ (shInsert t prs).1 = prs.length) ∧
    (∀ (t : String) (wm vm : List (String × Val)) (j sql : String) (ps : List Val),
        countQ t = 0 → (∀ kv ∈ wm, countQ kv.1 = 0) → (∀ kv ∈ vm, countQ kv.1 = 0) →
        shUpdate t wm vm j = .ok (sql, ps) →
        countQ sql = vm.length + wm.length) ∧
    (∀ (t : String) (wm : List (String × Val)) (j sql : String) (ps : List Val),
        countQ t = 0 → (∀ kv ∈ wm, countQ kv.1 = 0) →
        shDelete t wm j = .ok (sql, ps) →
        countQ sql = wm.length) := by
  refine ⟨?_, ?_, ?_, ?_, ?_, ?_, ?_, ?_, ?_, ?_, ?_⟩
  · intro t c wh v o
    simp only [shSelect]
    cases colsToStr c <;> simp [Except.map]
  · intro t wh v
    rfl
  · intro t prs prs' h
    simp only [shInsert]
    rw [h]
  · intro t prs
    rfl
  · intro t wm vm wm' vm' j hw hv
    have hwc : wm.map (fun kv => "`" ++ kv.1 ++ "`=?")
        = wm'.map (fun kv => "`" ++ kv.1 ++ "`=?") := by
      have h2 := congrArg (List.map (fun k => "`" ++ k ++ "`=?")) hw
      simpa [List.map_map, Function.comp] using h2
    have hvc : vm.map (fun kv => "`" ++ kv.1 ++ "`=?")
        = vm'.map (fun kv => "`" ++ kv.1 ++ "`=?") := by
      have h2 := congrArg (List.map (fun k => "`" ++ k ++ "`=?")) hv
      simpa [List.map_map, Function.comp] using h2
    by_cases h1 : pyLower (pyStrip j) = "and"
    · simp [shUpdate, h1, hwc, hvc, Except.map]
    · by_cases h2 : pyLower (pyStrip j) = "or"
      · simp [shUpdate, h1, h2, hwc, hvc, Except.map]
      · simp [shUpdate, h1, h2, Except.map]
  · intro t wm vm j sql ps h
    simp only [shUpdate] at h
    split_ifs at h <;>
      simp only [Except.ok.injEq, Prod.mk.injEq] at h
    · exact h.2.symm
    · exact h.2.symm
  · intro t wm wm' j hw
    have hwc : wm.map (fun kv => "`" ++ kv.1 ++ "`=?")
        = wm'.map (fun kv => "`" ++ kv.1 ++ "`=?") := by
      have h2 := congrArg (List.map (fun k => "`" ++ k ++ "`=?")) hw
      simpa [List.map_map, Function.comp] using h2
    by_cases h1 : pyLower (pyStrip j) = "and"
    · simp [shDelete, h1, hwc, Except.map]
    · by_cases h2 : pyLower (pyStrip j) = "or"
      · simp [shDelete, h1, h2, hwc, Except.map]
      · simp [shDelete, h1, h2, Except.map]
  · intro t wm j sql ps h
    simp only [shDelete] at h
    split_ifs at h <;>
      simp only [Except.ok.injEq, Prod.mk.injEq] at h
    · exact h.2.symm
    · exact h.2.symm
  · intro t prs h0 hk
    simp only [shInsert]
    rw [countQ_append, countQ_append, countQ_append, countQ_append, countQ_append,
      countQ_append, h0]
    have hcols : countQ (strJoin ","
        ((prs.map Prod.fst).map (fun n => "`" ++ n ++ "`"))) = 0 := by
      apply countQ_strJoin_zeros "," (by decide)
      intro x hx
      obtain ⟨n, hn, rfl⟩ := List.mem_map.mp hx
      obtain ⟨kv, hkv, rfl⟩ := List.mem_map.mp hn
      rw [countQ_append, countQ_append, hk kv hkv]
      decide
    have hph : countQ (strJoin ","
        (List.replicate (prs.map Prod.fst).length "?")) = prs.length := by
      rw [countQ_strJoin_ones "," (by decide)]
      · simp
      · intro x hx
        rw [List.eq_of_mem_replicate hx]
        decide
    have c1 : countQ "INSERT INTO `" = 0 := by decide
    have c2 : countQ "` (" = 0 := by decide
    have c3 : countQ ") VALUES (" = 0 := by decide
    have c4 : countQ ")" = 0 := by decide
    rw [hcols, hph, c1, c2, c3, c4]
    omega
  · intro t wm vm j sql ps h0 hw hv h
    simp only [shUpdate] at h
    split_ifs at h <;>
      simp only [Except.ok.injEq, Prod.mk.injEq] at h
    · rw [← h.1]
      rw [countQ_append, countQ_append, countQ_append, countQ_append, countQ_append, h0,
        countQ_fragList vm hv "," (by decide), countQ_fragList wm hw " AND " (by decide)]
      have c1 : countQ "UPDATE `" = 0 := by decide
      have c2 : countQ "` SET " = 0 := by decide
      have c3 : countQ " WHERE " = 0 := by decide
      rw [c1, c2, c3]
      omega
    · rw [← h.1]
      rw [countQ_append, countQ_append, countQ_append, countQ_append, countQ_append, h0,
        countQ_fragList vm hv "," (by decide), countQ_fragList wm hw " OR " (by decide)]
      have c1 : countQ "UPDATE `" = 0 := by decide
      have c2 : countQ "` SET " = 0 := by decide
      have c3 : countQ " WHERE " = 0 := by decide
      rw [c1, c2, c3]
      omega
  · intro t wm j sql ps h0 hw h
    simp only [shDelete] at h
    split_ifs at h <;>
      simp only [Except.ok.injEq, Prod.mk.injEq] at h
    · rw [← h.1]
      rw [countQ_append, countQ_append, countQ_append, h0,
        countQ_fragList wm hw " AND " (by decide)]
      have c1 : countQ "DELETE FROM `" = 0 := by decide
      have c2 : countQ "` WHERE " = 0 := by decide
      rw [c1, c2]
      omega
    · rw [← h.1]
      rw [countQ_append, countQ_append, countQ_append, h0,
        countQ_fragList wm hw " OR " (by decide)]
      have c1 : countQ "DELETE FROM `" = 0 := by decide
      have c2 : countQ "` WHERE " = 0 := by decide
      rw [c1, c2]
      omega

/-- Witness for C2: an insert carries its two values only in the bound list,
with exactly two placeholders in the SQL text. -/
theorem C2_values_never_in_sql_witness :
    (shInsert "emp" [("name", Val.str "Bob"), ("awesome", Val.int 1)]).2
        = [Val.str "Bob", Val.int 1] ∧
    countQ (shInsert "emp" [("name", Val.str "Bob"), ("awesome", Val.int 1)]).1 = 2 := by
  constructor
  · exact C2_values_never_in_sql.2.2.2.1 "emp" [("name", Val.str "Bob"), ("awesome", Val.int 1)]
  · exact C2_values_never_in_sql.2.2.2.2.2.2.2.2.1 "emp"
      [("name", Val.str "Bob"), ("awesome", Val.int 1)] (by decide) (by decide)

end SqliteHelper
